import Mathlib

/-!
# Mailing-list double opt-in flow: shallow embedding and verification

This file embeds the state-transition core of the `joy095/mailing-list`
repository: the subscribe handler (`src/routes/api/subscribe/+server.ts`,
plus its two earlier revisions), the confirm handler
(`src/routes/confirm-subscription/+server.ts`), and the two SQL statements
they issue against the `subscribers` table.

Modelling conventions:
* The subscriber store is a `List Subscriber`; each SQL statement becomes a
  pure function on that list.  The `id`, `created_at` and `updated_at`
  columns are omitted: no verified property mentions them.
* Postgres executes each statement atomically, so concurrent handler calls
  are modelled by sequential composition of the statement functions.
* Nondeterministic or external effects are passed in as parameters: the
  generated `uuidv4()` token, and boolean flags saying whether the database
  connection test, the main query, and `sendConfirmationEmail` succeed.
* The handler result records the HTTP response, the store after the call,
  and the list of notifier calls made (recipient, token) — including calls
  whose delivery then fails, since the call was issued.
* JavaScript falsiness of a string (`!email`, `!token`) covers both a
  missing value and the empty string.
-/

namespace MailingList

/-- Subscriber status, the `status` column: `pending`, `confirmed` or
`unsubscribed`. -/
inductive SubscriberStatus
  | pending
  | confirmed
  | unsubscribed
deriving DecidableEq, Repr

/-- One row of the `subscribers` table (the columns the handlers read or
write; `id` and the timestamps are omitted). -/
structure Subscriber where
  email : String
  status : SubscriberStatus
  confirmation_token : Option String
deriving DecidableEq, Repr

/-- An HTTP response as produced by `json(body, { status })`: the status
code and the `message` field of the JSON body. -/
structure Response where
  status : Nat
  message : String
deriving DecidableEq, Repr

/-- A character admitted by the regex class `[^\s@]` of the email regex
(whitespace modelled by `Char.isWhitespace`). -/
def isAtomChar (c : Char) : Bool :=
  !c.isWhitespace && c != '@'

/-- Matches `[^\s@]+`: nonempty and every character admissible. -/
def matchesAtom (l : List Char) : Bool :=
  !l.isEmpty && l.all isAtomChar

/-- All decompositions of a list into a prefix and a suffix. -/
def splits (l : List Char) : List (List Char × List Char) :=
  (List.range (l.length + 1)).map fun i => (l.take i, l.drop i)

/-- Matches `[^\s@]+\.[^\s@]+` (the part of the email regex after the
`@`), as an existential over decompositions. -/
def matchesDomainTail (l : List Char) : Bool :=
  (splits l).any fun p =>
    matchesAtom p.1 &&
      match p.2 with
      | '.' :: c => matchesAtom c
      | _ => false

/-- `emailRegex.test(email)` for the regex
`/^[^\s@]+@[^\s@]+\.[^\s@]+$/` used by every subscribe revision. -/
def emailRegexTest (s : String) : Bool :=
  (splits s.data).any fun p =>
    matchesAtom p.1 &&
      match p.2 with
      | '@' :: rest => matchesDomainTail rest
      | _ => false

/-- The `DO UPDATE` arm of the subscribe upsert: overwrite
`confirmation_token` with the new token, and recompute `status` by
`CASE WHEN subscribers.status = 'unsubscribed' THEN 'pending' ELSE
subscribers.status END`. -/
def upsertRow (r : Subscriber) (token : String) : Subscriber :=
  { r with
    confirmation_token := some token,
    status := if r.status = .unsubscribed then .pending else r.status }

/-- The subscribe statement
`INSERT INTO subscribers(email, status, confirmation_token) VALUES($1,
'pending', $2) ON CONFLICT (email) DO UPDATE SET ... RETURNING id, status,
email`: returns the store after the statement and the `RETURNING` rows. -/
def upsert (db : List Subscriber) (email token : String) :
    List Subscriber × List Subscriber :=
  match db.find? (fun r => r.email == email) with
  | some r =>
      (db.map fun x => if x.email == email then upsertRow x token else x,
       [upsertRow r token])
  | none =>
      (db ++ [⟨email, .pending, some token⟩], [⟨email, .pending, some token⟩])

/-- The `WHERE` clause of the confirm statement:
`confirmation_token = $1 AND status = 'pending'`. -/
def confirmMatches (r : Subscriber) (token : String) : Bool :=
  r.confirmation_token == some token && r.status == .pending

/-- The `SET` clause of the confirm statement:
`status = 'confirmed', confirmation_token = NULL`. -/
def confirmRow (r : Subscriber) : Subscriber :=
  { r with status := .confirmed, confirmation_token := none }

/-- The confirm statement `UPDATE subscribers SET status = 'confirmed',
confirmation_token = NULL WHERE confirmation_token = $1 AND status =
'pending' RETURNING id, email`: the store afterwards and the `RETURNING`
rows. -/
def confirmUpdate (db : List Subscriber) (token : String) :
    List Subscriber × List Subscriber :=
  (db.map fun r => if confirmMatches r token then confirmRow r else r,
   (db.filter (fun r => confirmMatches r token)).map confirmRow)

/-- Result of one confirm-handler call: the store after the call, the HTTP
response, and the `confirmedEmail` value the handler extracts from
`result.rows[0]?.email` on success. -/
structure ConfirmOutcome where
  db : List Subscriber
  response : Response
  confirmedEmail : Option String
deriving DecidableEq, Repr

/-- The confirm handler (`GET` of `src/routes/confirm-subscription/
+server.ts`).  `tokenParam` is `url.searchParams.get('token')` (`none` when
absent); `dbOk` says whether the `UPDATE` query succeeds (its failure is
caught and answered with a generic 500). -/
def GET (db : List Subscriber) (tokenParam : Option String) (dbOk : Bool) :
    ConfirmOutcome :=
  match tokenParam with
  | none => ⟨db, ⟨400, "Confirmation token is missing from the link."⟩, none⟩
  | some token =>
    if token = "" then
      ⟨db, ⟨400, "Confirmation token is missing from the link."⟩, none⟩
    else if !dbOk then
      ⟨db, ⟨500, "An error occurred during confirmation. Please try again."⟩, none⟩
    else
      let q := confirmUpdate db token
      match q.2 with
      | [] =>
          ⟨q.1,
           ⟨404, "Invalid or expired confirmation link, or subscription already confirmed."⟩,
           none⟩
      | r :: _ =>
          ⟨q.1, ⟨200, "Your subscription has been successfully confirmed!"⟩, some r.email⟩

/-- A subscribe request body as the handler sees it: either a body
`request.json()` fails to parse, or a parsed body whose `email` field is
`none` when missing. -/
inductive ReqBody
  | invalidJson
  | valid (email : Option String)
deriving DecidableEq, Repr

/-- Result of one subscribe-handler call: the store after the call, the
HTTP response, and the `sendConfirmationEmail` calls made (recipient,
token). -/
structure SubscribeOutcome where
  db : List Subscriber
  response : Response
  notifierCalls : List (String × String)
deriving DecidableEq, Repr

/-- The current subscribe handler (`POST` of
`src/routes/api/subscribe/+server.ts`).  `token` is the generated
`uuidv4()`; `dbConnOk` is the `SELECT 1` connection test, `dbQueryOk` the
upsert query, `emailOk` the `sendConfirmationEmail` call. -/
def POST (req : ReqBody) (db : List Subscriber) (token : String)
    (dbConnOk dbQueryOk emailOk : Bool) : SubscribeOutcome :=
  match req with
  | .invalidJson => ⟨db, ⟨400, "Invalid request format."⟩, []⟩
  | .valid none => ⟨db, ⟨400, "Email address is required."⟩, []⟩
  | .valid (some email) =>
    if email = "" then
      ⟨db, ⟨400, "Email address is required."⟩, []⟩
    else if !emailRegexTest email then
      ⟨db, ⟨400, "Please enter a valid email address format."⟩, []⟩
    else if !dbConnOk then
      ⟨db, ⟨503, "Database service unavailable. Please try again later."⟩, []⟩
    else if !dbQueryOk then
      ⟨db, ⟨500, "Database error occurred. Please try again later."⟩, []⟩
    else
      let q := upsert db email token
      match q.2 with
      | [] => ⟨q.1, ⟨500, "Failed to process subscription request. Please try again."⟩, []⟩
      | row :: _ =>
        if row.status = .confirmed then
          ⟨q.1, ⟨200, "You are already subscribed and confirmed!"⟩, []⟩
        else if emailOk then
          ⟨q.1, ⟨200, "Please check your email to confirm your subscription!"⟩,
           [(row.email, token)]⟩
        else
          ⟨q.1,
           ⟨500, "Failed to send confirmation email. Please try again or contact support."⟩,
           [(row.email, token)]⟩

/-- The `unnamed/part_001` revision of the subscribe handler.  It has no
connection test and no dedicated JSON-parse catch (a parse failure falls
through to the outer catch, a 500), and it masks a `sendConfirmationEmail`
failure as a 200 success. -/
def POSTrev1 (req : ReqBody) (db : List Subscriber) (token : String)
    (dbQueryOk emailOk : Bool) : SubscribeOutcome :=
  match req with
  | .invalidJson => ⟨db, ⟨500, "Internal server error occurred."⟩, []⟩
  | .valid none => ⟨db, ⟨400, "Email address is required."⟩, []⟩
  | .valid (some email) =>
    if email = "" then
      ⟨db, ⟨400, "Email address is required."⟩, []⟩
    else if !emailRegexTest email then
      ⟨db, ⟨400, "Please enter a valid email address format."⟩, []⟩
    else if !dbQueryOk then
      ⟨db, ⟨500, "Database error occurred. Please try again later."⟩, []⟩
    else
      let q := upsert db email token
      match q.2 with
      | [] => ⟨q.1, ⟨500, "Failed to process subscription request. Please try again."⟩, []⟩
      | row :: _ =>
        if row.status = .confirmed then
          ⟨q.1, ⟨200, "You are already subscribed and confirmed!"⟩, []⟩
        else if emailOk then
          ⟨q.1, ⟨200, "Please check your email to confirm your subscription!"⟩,
           [(row.email, token)]⟩
        else
          ⟨q.1,
           ⟨200,
            "Subscription saved! Please check your email or contact support if you don\x27t receive confirmation."⟩,
           [(row.email, token)]⟩

/-- The `unnamed/part_000` revision of the subscribe handler.  Database and
email failures are caught by one combined catch that answers 500 with the
same generic message for both; the store write persists when the email
send then fails. -/
def POSTrev0 (req : ReqBody) (db : List Subscriber) (token : String)
    (dbQueryOk emailOk : Bool) : SubscribeOutcome :=
  match req with
  | .invalidJson => ⟨db, ⟨500, "Internal server error occurred."⟩, []⟩
  | .valid none => ⟨db, ⟨400, "Email address is required."⟩, []⟩
  | .valid (some email) =>
    if email = "" then
      ⟨db, ⟨400, "Email address is required."⟩, []⟩
    else if !emailRegexTest email then
      ⟨db, ⟨400, "Please enter a valid email address format."⟩, []⟩
    else if !dbQueryOk then
      ⟨db, ⟨500, "Failed to subscribe. Please try again later."⟩, []⟩
    else
      let q := upsert db email token
      match q.2 with
      | [] => ⟨q.1, ⟨500, "Failed to process subscription request. Please try again."⟩, []⟩
      | row :: _ =>
        if row.status = .confirmed then
          ⟨q.1, ⟨200, "You are already subscribed and confirmed!"⟩, []⟩
        else if emailOk then
          ⟨q.1, ⟨200, "Please check your email to confirm your subscription!"⟩,
           [(row.email, token)]⟩
        else
          ⟨q.1, ⟨500, "Failed to subscribe. Please try again later."⟩,
           [(row.email, token)]⟩

/-- Store states reachable from the empty store by the current subscribe
handler and the confirm handler, with arbitrary requests, tokens and
success flags. -/
inductive Reachable : List Subscriber → Prop
  | init : Reachable []
  | subscribe (db : List Subscriber) (req : ReqBody) (token : String)
      (dbConnOk dbQueryOk emailOk : Bool) :
      Reachable db → Reachable (POST req db token dbConnOk dbQueryOk emailOk).db
  | confirm (db : List Subscriber) (tokenParam : Option String) (dbOk : Bool) :
      Reachable db → Reachable (GET db tokenParam dbOk).db

/-! ## Helper lemmas about the two SQL statements -/

/-- The upsert always returns exactly one row (`INSERT ... ON CONFLICT DO
UPDATE ... RETURNING` affects exactly one row). -/
theorem upsert_rows_single (db : List Subscriber) (email token : String) :
    ∃ row, (upsert db email token).2 = [row] := by
  cases hf : db.find? (fun r => r.email == email) with
  | none => exact ⟨⟨email, .pending, some token⟩, by simp [upsert, hf]⟩
  | some r => exact ⟨upsertRow r token, by simp [upsert, hf]⟩

/-- The returned upsert row is in the updated store, carries the requested
email, and holds the fresh token. -/
theorem upsert_returned_row (db : List Subscriber) (email token : String)
    (row : Subscriber) (h : (upsert db email token).2 = [row]) :
    row ∈ (upsert db email token).1 ∧ row.email = email ∧
    row.confirmation_token = some token := by
  cases hf : db.find? (fun r => r.email == email) with
  | none =>
      have h2 : row = (⟨email, .pending, some token⟩ : Subscriber) := by
        simp [upsert, hf] at h
        exact h.symm
      subst h2
      simp [upsert, hf]
  | some r =>
      have hrdb : r ∈ db := List.mem_of_find?_eq_some hf
      have hre : r.email = email := by simpa using List.find?_some hf
      have h2 : row = upsertRow r token := by
        simp [upsert, hf] at h
        exact h.symm
      subst h2
      refine ⟨?_, by simp [upsertRow, hre], by simp [upsertRow]⟩
      simp only [upsert, hf]
      have himg : (fun x => if x.email == email then upsertRow x token else x) r
          = upsertRow r token := by simp [hre]
      rw [← himg]
      exact List.mem_map_of_mem _ hrdb

/-- Every record of the store after an upsert is an unchanged old record,
an old record rewritten by the `DO UPDATE` arm, or the freshly inserted
pending record. -/
theorem upsert_fst_cases (db : List Subscriber) (email token : String) :
    ∀ x ∈ (upsert db email token).1,
      x ∈ db ∨ (∃ y, y ∈ db ∧ x = upsertRow y token) ∨
      x = (⟨email, .pending, some token⟩ : Subscriber) := by
  intro x hx
  cases hf : db.find? (fun r => r.email == email) with
  | none =>
      simp [upsert, hf] at hx
      rcases hx with hx | hx
      · exact Or.inl hx
      · exact Or.inr (Or.inr hx)
  | some r =>
      simp [upsert, hf, List.mem_map] at hx
      obtain ⟨y, hy, hxy⟩ := hx
      by_cases hye : y.email = email
      · refine Or.inr (Or.inl ⟨y, hy, ?_⟩)
        rw [← hxy]
        simp [hye]
      · refine Or.inl ?_
        have : x = y := by rw [← hxy]; simp [hye]
        rw [this]
        exact hy

/-- A record rewritten by the confirm statement no longer matches any
token (its token is `NULL`). -/
theorem confirmMatches_confirmRow (r : Subscriber) (t : String) :
    confirmMatches (confirmRow r) t = false := by
  simp [confirmMatches, confirmRow]

/-- After the confirm statement runs, no record in the store matches the
consumed token. -/
theorem confirmUpdate_fst_no_match (db : List Subscriber) (t : String) :
    ∀ x ∈ (confirmUpdate db t).1, confirmMatches x t = false := by
  intro x hx
  simp [confirmUpdate, List.mem_map] at hx
  obtain ⟨y, hy, hxy⟩ := hx
  by_cases hm : confirmMatches y t
  · rw [← hxy]
    simp [hm, confirmMatches_confirmRow]
  · rw [← hxy]
    simp [hm]

/-- The confirm statement returns no rows exactly when no record matches
the token. -/
theorem confirmUpdate_nil_iff (db : List Subscriber) (t : String) :
    (confirmUpdate db t).2 = [] ↔ ∀ x ∈ db, confirmMatches x t = false := by
  simp only [confirmUpdate, List.map_eq_nil_iff, List.filter_eq_nil_iff]
  constructor
  · intro h x hx
    simpa using h x hx
  · intro h x hx
    simp [h x hx]

/-- When no record matches the token, the confirm statement leaves the
store unchanged. -/
theorem confirmUpdate_id_of_no_match (db : List Subscriber) (t : String)
    (h : ∀ x ∈ db, confirmMatches x t = false) :
    (confirmUpdate db t).1 = db := by
  simp only [confirmUpdate]
  have h2 : ∀ x ∈ db, (if confirmMatches x t then confirmRow x else x) = x := by
    intro x hx
    simp [h x hx]
  calc db.map (fun r => if confirmMatches r t then confirmRow r else r)
      = db.map id := List.map_congr_left h2
    _ = db := List.map_id db

/-- A confirm call with a nonempty token that matches no record answers
404 and leaves the store untouched. -/
theorem GET_of_no_match (db : List Subscriber) (t : String) (ht : t ≠ "")
    (h : ∀ x ∈ db, confirmMatches x t = false) :
    GET db (some t) true =
      ⟨db,
       ⟨404, "Invalid or expired confirmation link, or subscription already confirmed."⟩,
       none⟩ := by
  have h2 : (confirmUpdate db t).2 = [] := (confirmUpdate_nil_iff db t).mpr h
  have h1 : (confirmUpdate db t).1 = db := confirmUpdate_id_of_no_match db t h
  simp [GET, ht, h2, h1]

/-- A confirm call with a nonempty token that matches some record answers
200, and the store afterwards is the store after the conditional update. -/
theorem GET_success (db : List Subscriber) (t : String) (ht : t ≠ "")
    (x : Subscriber) (hx : x ∈ db) (hm : confirmMatches x t = true) :
    (GET db (some t) true).response.status = 200 ∧
    (GET db (some t) true).db = (confirmUpdate db t).1 := by
  cases hq : (confirmUpdate db t).2 with
  | nil =>
      exfalso
      have := (confirmUpdate_nil_iff db t).mp hq x hx
      rw [hm] at this
      cases this
  | cons a as => constructor <;> simp [GET, ht, hq]

/-- The store after a confirm call with a nonempty token is the store
after the conditional update, whatever the update returned. -/
theorem GET_db_eq (db : List Subscriber) (t : String) (ht : t ≠ "") :
    (GET db (some t) true).db = (confirmUpdate db t).1 := by
  cases hq : (confirmUpdate db t).2 with
  | nil =>
      have h : ∀ x ∈ db, confirmMatches x t = false := (confirmUpdate_nil_iff db t).mp hq
      rw [GET_of_no_match db t ht h]
      exact (confirmUpdate_id_of_no_match db t h).symm
  | cons a as => simp [GET, ht, hq]

/-- Every record of the store after a confirm call is an unchanged old
record or an old matching record rewritten to confirmed with a cleared
token. -/
theorem GET_some_db_cases (db : List Subscriber) (t : String) (ht : t ≠ "") :
    ∀ x ∈ (GET db (some t) true).db,
      x ∈ db ∨ ∃ y, y ∈ db ∧ confirmMatches y t = true ∧ x = confirmRow y := by
  intro x hx
  rw [GET_db_eq db t ht] at hx
  simp [confirmUpdate, List.mem_map] at hx
  obtain ⟨y, hy, hxy⟩ := hx
  by_cases hm : confirmMatches y t
  · exact Or.inr ⟨y, hy, by simpa using hm, by rw [← hxy]; simp [hm]⟩
  · refine Or.inl ?_
    have : x = y := by rw [← hxy]; simp [hm]
    rw [this]
    exact hy

/-- In the branch where the upsert query ran, the subscribe handler's
resulting store is the store after the upsert, whichever response branch
is taken. -/
theorem POST_db_of_query (db : List Subscriber) (email token : String)
    (e : Bool) (hne : email ≠ "") (hv : emailRegexTest email = true) :
    (POST (.valid (some email)) db token true true e).db =
      (upsert db email token).1 := by
  obtain ⟨row, hrow⟩ := upsert_rows_single db email token
  by_cases hc : row.status = .confirmed
  · simp [POST, hne, hv, hrow, hc]
  · cases e <;> simp [POST, hne, hv, hrow, hc]

/-- Every record of the store after a subscribe-handler call is an
unchanged old record, an old record rewritten by the upsert, or a freshly
inserted pending record holding the new token. -/
theorem POST_db_cases (req : ReqBody) (db : List Subscriber) (token : String)
    (c q e : Bool) :
    ∀ x ∈ (POST req db token c q e).db,
      x ∈ db ∨ (∃ y, y ∈ db ∧ x = upsertRow y token) ∨
      ∃ em, x = (⟨em, .pending, some token⟩ : Subscriber) := by
  intro x hx
  cases req with
  | invalidJson => exact Or.inl (by simpa [POST] using hx)
  | valid email? =>
    cases email? with
    | none => exact Or.inl (by simpa [POST] using hx)
    | some email =>
      by_cases he : email = ""
      · exact Or.inl (by simpa [POST, he] using hx)
      by_cases hv : emailRegexTest email
      case neg => exact Or.inl (by simpa [POST, he, hv] using hx)
      cases c with
      | false => exact Or.inl (by simpa [POST, he, hv] using hx)
      | true =>
        cases q with
        | false => exact Or.inl (by simpa [POST, he, hv] using hx)
        | true =>
          rw [POST_db_of_query db email token e he hv] at hx
          rcases upsert_fst_cases db email token x hx with h | h | h
          · exact Or.inl h
          · exact Or.inr (Or.inl h)
          · exact Or.inr (Or.inr ⟨email, h⟩)

/-- The store after a confirm-handler call whose token is absent, empty or
whose query fails is the incoming store. -/
theorem GET_db_unchanged (db : List Subscriber) (tp : Option String)
    (dbOk : Bool)
    (h : tp = none ∨ tp = some "" ∨ dbOk = false) :
    (GET db tp dbOk).db = db := by
  cases tp with
  | none => simp [GET]
  | some t =>
    rcases h with h | h | h
    · cases h
    · rw [Option.some_inj] at h
      simp [GET, h]
    · subst h
      by_cases ht : t = "" <;> simp [GET, ht]

/-- The single-record pending store reached by one subscribe call on the
empty store. -/
theorem Reachable_pending_example :
    Reachable [⟨"a@b.c", .pending, some "T1"⟩] := by
  have h := Reachable.subscribe [] (.valid (some "a@b.c")) "T1" true true true
    Reachable.init
  have e : (POST (.valid (some "a@b.c")) [] "T1" true true true).db =
      [⟨"a@b.c", .pending, some "T1"⟩] := by decide
  rw [e] at h
  exact h

/-- The confirmed store reached by subscribing and then confirming. -/
theorem Reachable_confirmed_example :
    Reachable [⟨"a@b.c", .confirmed, none⟩] := by
  have h := Reachable.confirm [⟨"a@b.c", .pending, some "T1"⟩] (some "T1") true
    Reachable_pending_example
  have e : (GET [⟨"a@b.c", .pending, some "T1"⟩] (some "T1") true).db =
      [⟨"a@b.c", .confirmed, none⟩] := by decide
  rw [e] at h
  exact h

/-- Re-subscribing a confirmed address leaves a confirmed record carrying
the fresh token: this store is reachable. -/
theorem Reachable_confirmed_token_example :
    Reachable [⟨"a@b.c", .confirmed, some "T2"⟩] := by
  have h := Reachable.subscribe [⟨"a@b.c", .confirmed, none⟩]
    (.valid (some "a@b.c")) "T2" true true true Reachable_confirmed_example
  have e : (POST (.valid (some "a@b.c")) [⟨"a@b.c", .confirmed, none⟩] "T2"
      true true true).db = [⟨"a@b.c", .confirmed, some "T2"⟩] := by decide
  rw [e] at h
  exact h

/-! ## Claim theorems -/

/-- C1: when the store holds exactly one subscriber whose
`confirmation_token` equals the given nonempty token and whose status is
`pending`, the confirm handler performs the single conditional update—
setting that record's status to `confirmed` and clearing its token to
null, leaving all other records unchanged—and answers HTTP 200, with the
confirmed address extracted from the returned row. -/
theorem confirm_single_pending_updates
    (db : List Subscriber) (t : String) (r : Subscriber)
    (ht : t ≠ "") (hr : r ∈ db)
    (htok : r.confirmation_token = some t) (hst : r.status = .pending)
    (huniq : ∀ x ∈ db, confirmMatches x t = true → x = r) :
    (GET db (some t) true).response =
      ⟨200, "Your subscription has been successfully confirmed!"⟩ ∧
    (GET db (some t) true).confirmedEmail = some r.email ∧
    (GET db (some t) true).db =
      db.map (fun x => if x = r then confirmRow r else x) := by
  have hm : confirmMatches r t = true := by simp [confirmMatches, htok, hst]
  have hfil : r ∈ db.filter (fun x => confirmMatches x t) :=
    List.mem_filter.mpr ⟨hr, hm⟩
  obtain ⟨a, as, hfe⟩ :
      ∃ a as, db.filter (fun x => confirmMatches x t) = a :: as := by
    cases hfe : db.filter (fun x => confirmMatches x t) with
    | nil => rw [hfe] at hfil; cases hfil
    | cons a as => exact ⟨a, as, rfl⟩
  have ha : a ∈ db.filter (fun x => confirmMatches x t) := by
    rw [hfe]; exact List.mem_cons_self a as
  have har : a = r :=
    huniq a (List.mem_of_mem_filter ha) (by simpa using List.of_mem_filter ha)
  have hq2 : (confirmUpdate db t).2 = confirmRow a :: as.map confirmRow := by
    simp [confirmUpdate, hfe]
  refine ⟨by simp [GET, ht, hq2], ?_, ?_⟩
  · simp [GET, ht, hq2, har, confirmRow]
  · have hdb : (GET db (some t) true).db = (confirmUpdate db t).1 :=
      GET_db_eq db t ht
    rw [hdb]
    simp only [confirmUpdate]
    apply List.map_congr_left
    intro y hy
    by_cases hyr : y = r
    · subst hyr
      simp [hm]
    · have hnm : confirmMatches y t = false := by
        by_contra hc
        exact hyr (huniq y hy (by simpa using hc))
      simp [hnm, hyr]

/-- C1 witness: the claim instantiated on a one-record pending store. -/
theorem confirm_single_pending_updates_witness :
    (GET [⟨"a@b.c", .pending, some "T"⟩] (some "T") true).response =
      ⟨200, "Your subscription has been successfully confirmed!"⟩ ∧
    (GET [⟨"a@b.c", .pending, some "T"⟩] (some "T") true).confirmedEmail =
      some "a@b.c" ∧
    (GET [⟨"a@b.c", .pending, some "T"⟩] (some "T") true).db =
      [⟨"a@b.c", .pending, some "T"⟩].map
        (fun x => if x = ⟨"a@b.c", .pending, some "T"⟩
          then confirmRow ⟨"a@b.c", .pending, some "T"⟩ else x) :=
  confirm_single_pending_updates [⟨"a@b.c", .pending, some "T"⟩] "T"
    ⟨"a@b.c", .pending, some "T"⟩ (by decide) (by simp) rfl rfl (by decide)

/-- C2: the subscribe upsert creates a fresh `pending` record with the new
token when the address is unseen; when a record exists it overwrites that
record's token unconditionally and recomputes status as `unsubscribed →
pending`, `pending → pending`, `confirmed → confirmed`, leaving other
records unchanged. -/
theorem subscribe_upsert_spec (db : List Subscriber) (email token : String) :
    ((∀ r ∈ db, r.email ≠ email) →
      upsert db email token =
        (db ++ [⟨email, .pending, some token⟩],
         [⟨email, .pending, some token⟩])) ∧
    (∀ r ∈ db, r.email = email → (∀ x ∈ db, x.email = email → x = r) →
      (upsert db email token).2 = [upsertRow r token] ∧
      upsertRow r token ∈ (upsert db email token).1 ∧
      (∀ x ∈ db, x.email ≠ email → x ∈ (upsert db email token).1) ∧
      (upsertRow r token).email = r.email ∧
      (upsertRow r token).confirmation_token = some token ∧
      (r.status = .unsubscribed → (upsertRow r token).status = .pending) ∧
      (r.status = .pending → (upsertRow r token).status = .pending) ∧
      (r.status = .confirmed → (upsertRow r token).status = .confirmed)) := by
  constructor
  · intro hfresh
    have hf : db.find? (fun r => r.email == email) = none := by
      rw [List.find?_eq_none]
      intro x hx
      simpa using hfresh x hx
    simp [upsert, hf]
  · intro r hr hre huniq
    have hf : db.find? (fun x => x.email == email) = some r := by
      cases hf : db.find? (fun x => x.email == email) with
      | none =>
          exfalso
          have := List.find?_eq_none.mp hf r hr
          simp [hre] at this
      | some y =>
          have hy : y = r := huniq y (List.mem_of_find?_eq_some hf)
            (by simpa using List.find?_some hf)
          rw [hy]
    refine ⟨by simp [upsert, hf], ?_, ?_, by simp [upsertRow], by simp [upsertRow],
      ?_, ?_, ?_⟩
    · simp only [upsert, hf]
      have himg : (fun x => if x.email == email then upsertRow x token else x) r
          = upsertRow r token := by simp [hre]
      rw [← himg]
      exact List.mem_map_of_mem _ hr
    · intro x hx hxe
      simp only [upsert, hf]
      have himg : (fun y => if y.email == email then upsertRow y token else y) x
          = x := by simp [hxe]
      rw [← himg]
      exact List.mem_map_of_mem _ hx
    · intro h
      simp [upsertRow, h]
    · intro h
      simp [upsertRow, h]
    · intro h
      simp [upsertRow, h]

/-- C2 witness: the claim instantiated on the empty store (creation) and on
a one-record unsubscribed store (token overwrite, `unsubscribed →
pending`). -/
theorem subscribe_upsert_spec_witness :
    upsert [] "a@b.c" "T" =
      ([⟨"a@b.c", .pending, some "T"⟩], [⟨"a@b.c", .pending, some "T"⟩]) ∧
    (upsert [⟨"a@b.c", .unsubscribed, some "T0"⟩] "a@b.c" "T").2 =
      [upsertRow ⟨"a@b.c", .unsubscribed, some "T0"⟩ "T"] ∧
    (upsertRow (⟨"a@b.c", .unsubscribed, some "T0"⟩ : Subscriber) "T").status =
      .pending := by
  refine ⟨(subscribe_upsert_spec [] "a@b.c" "T").1 (by decide), ?_, ?_⟩
  · exact ((subscribe_upsert_spec [⟨"a@b.c", .unsubscribed, some "T0"⟩]
      "a@b.c" "T").2 ⟨"a@b.c", .unsubscribed, some "T0"⟩ (by simp) rfl
      (by decide)).1
  · exact ((subscribe_upsert_spec [⟨"a@b.c", .unsubscribed, some "T0"⟩]
      "a@b.c" "T").2 ⟨"a@b.c", .unsubscribed, some "T0"⟩ (by simp) rfl
      (by decide)).2.2.2.2.2.1 rfl

/-- C3: after the upsert completes, the subscribe handler branches on the
returned status: `confirmed` answers the already-subscribed success and
makes no notifier call; `pending` makes exactly one notifier call carrying
the subscriber's address and the stored token, then answers the
check-your-email success (a record holding that token is in the store). -/
theorem subscribe_branch_spec (db : List Subscriber) (email token : String)
    (row : Subscriber)
    (hv : emailRegexTest email = true) (hne : email ≠ "")
    (hrow : (upsert db email token).2 = [row]) :
    (row.status = .confirmed →
      POST (.valid (some email)) db token true true true =
        ⟨(upsert db email token).1,
         ⟨200, "You are already subscribed and confirmed!"⟩, []⟩) ∧
    (row.status = .pending →
      (POST (.valid (some email)) db token true true true).notifierCalls =
        [(row.email, token)] ∧
      (POST (.valid (some email)) db token true true true).response =
        ⟨200, "Please check your email to confirm your subscription!"⟩ ∧
      row ∈ (POST (.valid (some email)) db token true true true).db ∧
      row.confirmation_token = some token) := by
  obtain ⟨hmem, hemail, htok⟩ := upsert_returned_row db email token row hrow
  constructor
  · intro hconf
    simp [POST, hne, hv, hrow, hconf]
  · intro hpend
    have hnc : ¬ row.status = .confirmed := by
      rw [hpend]
      intro h
      cases h
    refine ⟨by simp [POST, hne, hv, hrow, hnc], by simp [POST, hne, hv, hrow, hnc],
      ?_, htok⟩
    rw [POST_db_of_query db email token true hne hv]
    exact hmem

/-- C3 witness: the pending branch on the empty store and the confirmed
branch on a store holding a confirmed record. -/
theorem subscribe_branch_spec_witness :
    (POST (.valid (some "a@b.c")) [] "T" true true true).notifierCalls =
      [("a@b.c", "T")] ∧
    POST (.valid (some "a@b.c")) [⟨"a@b.c", .confirmed, none⟩] "T" true true true =
      ⟨(upsert [⟨"a@b.c", .confirmed, none⟩] "a@b.c" "T").1,
       ⟨200, "You are already subscribed and confirmed!"⟩, []⟩ := by
  constructor
  · exact ((subscribe_branch_spec [] "a@b.c" "T" ⟨"a@b.c", .pending, some "T"⟩
      (by decide) (by decide) (by decide)).2 rfl).1
  · exact (subscribe_branch_spec [⟨"a@b.c", .confirmed, none⟩] "a@b.c" "T"
      (upsertRow ⟨"a@b.c", .confirmed, none⟩ "T") (by decide) (by decide)
      (by decide)).1 rfl

/-- C4: a confirm call whose nonempty token matches no record answers the
not-found outcome (HTTP 404) with every record unchanged; and when the
token does match, confirming it twice succeeds exactly once — the first
call answers 200 and the second answers 404 without changing the store. -/
theorem confirm_no_match_and_idempotent (db : List Subscriber) (t : String)
    (ht : t ≠ "") :
    ((∀ x ∈ db, confirmMatches x t = false) →
      GET db (some t) true =
        ⟨db,
         ⟨404, "Invalid or expired confirmation link, or subscription already confirmed."⟩,
         none⟩) ∧
    ((∃ x ∈ db, confirmMatches x t = true) →
      (GET db (some t) true).response.status = 200 ∧
      (GET (GET db (some t) true).db (some t) true).response.status = 404 ∧
      (GET (GET db (some t) true).db (some t) true).db =
        (GET db (some t) true).db) := by
  constructor
  · exact fun h => GET_of_no_match db t ht h
  · rintro ⟨x, hx, hm⟩
    obtain ⟨h200, hdb⟩ := GET_success db t ht x hx hm
    have hnm : ∀ y ∈ (GET db (some t) true).db, confirmMatches y t = false := by
      rw [hdb]
      exact confirmUpdate_fst_no_match db t
    have h404 := GET_of_no_match (GET db (some t) true).db t ht hnm
    exact ⟨h200, by rw [h404], by rw [h404]⟩

/-- C4 witness: a token absent from a one-record store answers 404 without
changes, and a matching token consumed twice yields 200 then 404. -/
theorem confirm_no_match_and_idempotent_witness :
    GET [⟨"a@b.c", .pending, some "T"⟩] (some "U") true =
      ⟨[⟨"a@b.c", .pending, some "T"⟩],
       ⟨404, "Invalid or expired confirmation link, or subscription already confirmed."⟩,
       none⟩ ∧
    (GET [⟨"a@b.c", .pending, some "T"⟩] (some "T") true).response.status = 200 ∧
    (GET (GET [⟨"a@b.c", .pending, some "T"⟩] (some "T") true).db (some "T")
      true).response.status = 404 := by
  refine ⟨?_, ?_, ?_⟩
  · exact (confirm_no_match_and_idempotent [⟨"a@b.c", .pending, some "T"⟩] "U"
      (by decide)).1 (by decide)
  · exact ((confirm_no_match_and_idempotent [⟨"a@b.c", .pending, some "T"⟩] "T"
      (by decide)).2 ⟨⟨"a@b.c", .pending, some "T"⟩, by simp, by decide⟩).1
  · exact ((confirm_no_match_and_idempotent [⟨"a@b.c", .pending, some "T"⟩] "T"
      (by decide)).2 ⟨⟨"a@b.c", .pending, some "T"⟩, by simp, by decide⟩).2.1

/-- C5 counterexample: the claimed invariant "a record's
`confirmation_token` is non-null only when its status is `pending`" fails
on a reachable store: subscribing `a@b.c`, confirming it, and subscribing
it again reaches a store whose only record is `confirmed` yet carries the
fresh non-null token, because the upsert overwrites the token
unconditionally. -/
theorem confirmed_record_with_token_reachable :
    Reachable [⟨"a@b.c", .confirmed, some "T2"⟩] ∧
    ¬ (∀ db, Reachable db →
        ∀ r ∈ db, r.confirmation_token ≠ none → r.status = .pending) := by
  refine ⟨Reachable_confirmed_token_example, fun h => ?_⟩
  have := h _ Reachable_confirmed_token_example
    ⟨"a@b.c", .confirmed, some "T2"⟩ (by simp) (by simp)
  exact absurd this (by decide)

/-- C5 amended: on every store reachable from the empty store, each
`pending` record holds a non-null token and each record with a null token
is `confirmed`; the subscribe handler never nulls a token (a null-token
record after subscribe was already in the store), and the confirm handler
nulls a token only by rewriting a record that matched the consumed token
in `pending` state.  (A `confirmed` record may however carry a non-null
stale token after a re-subscription, so a non-null token does not imply
`pending`.) -/
theorem reachable_token_invariant (db : List Subscriber) (h : Reachable db) :
    (∀ r ∈ db, (r.status = .pending → r.confirmation_token ≠ none) ∧
               (r.confirmation_token = none → r.status = .confirmed)) ∧
    (∀ req token c q e, ∀ x ∈ (POST req db token c q e).db,
       x.confirmation_token = none → x ∈ db) ∧
    (∀ t, t ≠ "" → ∀ x ∈ (GET db (some t) true).db,
       x.confirmation_token = none →
         x ∈ db ∨ ∃ y, y ∈ db ∧ confirmMatches y t = true ∧ x = confirmRow y) := by
  refine ⟨?_, ?_, ?_⟩
  · induction h with
    | init => intro r hr; cases hr
    | subscribe db req token c q e hdb ih =>
        intro r hr
        rcases POST_db_cases req db token c q e r hr with h1 | ⟨y, hy, hry⟩ | ⟨em, hrem⟩
        · exact ih r h1
        · subst hry
          exact ⟨fun _ => by simp [upsertRow], fun hn => by simp [upsertRow] at hn⟩
        · subst hrem
          exact ⟨fun _ => by simp, fun hn => by simp at hn⟩
    | confirm db tp dbOk hdb ih =>
        intro r hr
        cases tp with
        | none =>
            rw [GET_db_unchanged db none dbOk (Or.inl rfl)] at hr
            exact ih r hr
        | some t =>
          cases dbOk with
          | false =>
              rw [GET_db_unchanged db (some t) false (Or.inr (Or.inr rfl))] at hr
              exact ih r hr
          | true =>
            by_cases ht : t = ""
            · subst ht
              rw [GET_db_unchanged db (some "") true (Or.inr (Or.inl rfl))] at hr
              exact ih r hr
            · rcases GET_some_db_cases db t ht r hr with h1 | ⟨y, hy, hm, hry⟩
              · exact ih r h1
              · subst hry
                exact ⟨fun hp => by simp [confirmRow] at hp, fun _ => by simp [confirmRow]⟩
  · intro req token c q e x hx hxn
    rcases POST_db_cases req db token c q e x hx with h1 | ⟨y, hy, hxy⟩ | ⟨em, hxem⟩
    · exact h1
    · subst hxy
      simp [upsertRow] at hxn
    · subst hxem
      simp at hxn
  · intro t ht x hx _
    exact GET_some_db_cases db t ht x hx

/-- C5 amended witness: the invariant applied to the reachable one-record
pending store. -/
theorem reachable_token_invariant_witness :
    (⟨"a@b.c", .pending, some "T1"⟩ : Subscriber).confirmation_token ≠ none :=
  ((reachable_token_invariant [⟨"a@b.c", .pending, some "T1"⟩]
    Reachable_pending_example).1 ⟨"a@b.c", .pending, some "T1"⟩ (by simp)).1 rfl

/-- C6: for a valid email with no record in the store, one subscribe call
passes exactly the pair (email, generated token) to the notifier, and
confirming that token yields a store in which the record for that email is
`confirmed` with a null token. -/
theorem subscribe_confirm_roundtrip (db : List Subscriber)
    (email token : String)
    (hv : emailRegexTest email = true) (hne : email ≠ "") (htk : token ≠ "")
    (hfresh : ∀ r ∈ db, r.email ≠ email) :
    (POST (.valid (some email)) db token true true true).notifierCalls =
      [(email, token)] ∧
    (GET (POST (.valid (some email)) db token true true true).db (some token)
      true).response.status = 200 ∧
    (⟨email, .confirmed, none⟩ : Subscriber) ∈
      (GET (POST (.valid (some email)) db token true true true).db (some token)
        true).db ∧
    (∀ x ∈ (GET (POST (.valid (some email)) db token true true true).db
        (some token) true).db,
      x.email = email → x = (⟨email, .confirmed, none⟩ : Subscriber)) := by
  have hf : db.find? (fun r => r.email == email) = none := by
    rw [List.find?_eq_none]
    intro x hx
    simpa using hfresh x hx
  have hup : upsert db email token =
      (db ++ [⟨email, .pending, some token⟩], [⟨email, .pending, some token⟩]) := by
    simp [upsert, hf]
  have hpost : POST (.valid (some email)) db token true true true =
      ⟨db ++ [⟨email, .pending, some token⟩],
       ⟨200, "Please check your email to confirm your subscription!"⟩,
       [(email, token)]⟩ := by
    simp [POST, hne, hv, hup]
  have hm : confirmMatches ⟨email, .pending, some token⟩ token = true := by
    simp [confirmMatches]
  have hmem : (⟨email, .pending, some token⟩ : Subscriber) ∈
      db ++ [⟨email, .pending, some token⟩] := by simp
  refine ⟨by rw [hpost], ?_, ?_, ?_⟩
  · rw [hpost]
    exact (GET_success _ token htk _ hmem hm).1
  · rw [hpost]
    rw [GET_db_eq _ token htk]
    have himg : (fun r => if confirmMatches r token then confirmRow r else r)
        (⟨email, .pending, some token⟩ : Subscriber)
        = confirmRow ⟨email, .pending, some token⟩ := by simp [hm]
    have hmm : confirmRow ⟨email, .pending, some token⟩ ∈
        (db ++ [(⟨email, .pending, some token⟩ : Subscriber)]).map
          (fun r => if confirmMatches r token then confirmRow r else r) := by
      rw [← himg]
      exact List.mem_map_of_mem _ hmem
    simpa [confirmRow, confirmUpdate] using hmm
  · intro x hx hxe
    rw [hpost] at hx
    rw [GET_db_eq _ token htk] at hx
    simp only [confirmUpdate, List.mem_map] at hx
    obtain ⟨y, hy, hxy⟩ := hx
    rcases List.mem_append.mp hy with hyd | hyn
    · exfalso
      have hyemail : y.email ≠ email := hfresh y hyd
      apply hyemail
      rw [← hxe, ← hxy]
      by_cases hmy : confirmMatches y token
      · simp [hmy, confirmRow]
      · simp [hmy]
    · have hyeq : y = ⟨email, .pending, some token⟩ := by simpa using hyn
      subst hyeq
      rw [← hxy]
      simp [hm, confirmRow]

/-- C6 witness: the round trip on the empty store. -/
theorem subscribe_confirm_roundtrip_witness :
    (POST (.valid (some "a@b.c")) [] "T" true true true).notifierCalls =
      [("a@b.c", "T")] ∧
    (⟨"a@b.c", .confirmed, none⟩ : Subscriber) ∈
      (GET (POST (.valid (some "a@b.c")) [] "T" true true true).db (some "T")
        true).db := by
  have h := subscribe_confirm_roundtrip [] "a@b.c" "T" (by decide) (by decide)
    (by decide) (by decide)
  exact ⟨h.1, h.2.2.1⟩

/-- C7: a subscribe request whose email is missing, empty, or malformed
(`foo`, `foo@`, `@bar.com` all fail the regex) answers HTTP 400 with no
store write and no notifier call, whatever the store and collaborator
flags; a confirm request with a missing or empty token answers HTTP 400
with the store untouched. -/
theorem validation_rejections (db : List Subscriber) (token : String)
    (c q e dbOk : Bool) :
    POST (.valid none) db token c q e =
      ⟨db, ⟨400, "Email address is required."⟩, []⟩ ∧
    POST (.valid (some "")) db token c q e =
      ⟨db, ⟨400, "Email address is required."⟩, []⟩ ∧
    (∀ email, email ≠ "" → emailRegexTest email = false →
      POST (.valid (some email)) db token c q e =
        ⟨db, ⟨400, "Please enter a valid email address format."⟩, []⟩) ∧
    emailRegexTest "foo" = false ∧
    emailRegexTest "foo@" = false ∧
    emailRegexTest "@bar.com" = false ∧
    GET db none dbOk =
      ⟨db, ⟨400, "Confirmation token is missing from the link."⟩, none⟩ ∧
    GET db (some "") dbOk =
      ⟨db, ⟨400, "Confirmation token is missing from the link."⟩, none⟩ := by
  refine ⟨by simp [POST], by simp [POST], ?_, by decide, by decide, by decide,
    by simp [GET], by simp [GET]⟩
  intro email hne hv
  simp [POST, hne, hv]

/-- C7 witness: the rejections instantiated on a one-record store and the
malformed address `foo`. -/
theorem validation_rejections_witness :
    POST (.valid (some "foo")) [⟨"a@b.c", .pending, some "T"⟩] "U" true true true =
      ⟨[⟨"a@b.c", .pending, some "T"⟩],
       ⟨400, "Please enter a valid email address format."⟩, []⟩ ∧
    GET [⟨"a@b.c", .pending, some "T"⟩] (some "") true =
      ⟨[⟨"a@b.c", .pending, some "T"⟩],
       ⟨400, "Confirmation token is missing from the link."⟩, none⟩ := by
  have h := validation_rejections [⟨"a@b.c", .pending, some "T"⟩] "U"
    true true true true
  exact ⟨h.2.2.1 "foo" (by decide) (by decide), h.2.2.2.2.2.2.2⟩

/-- C8 counterexample: the notifier-failure policy is not applied
uniformly across the program.  On the same input (fresh address, upsert
succeeds, `sendConfirmationEmail` fails) the current handler answers 500
while the `part_001` revision answers 200; and in the `part_000` revision
a notifier failure is answered with exactly the response of a store
failure, so there it is conflated with store errors. -/
theorem notifier_policy_not_uniform :
    (POST (.valid (some "a@b.c")) [] "T" true true false).response.status = 500 ∧
    (POSTrev1 (.valid (some "a@b.c")) [] "T" true false).response.status = 200 ∧
    (POSTrev0 (.valid (some "a@b.c")) [] "T" true false).response =
      (POSTrev0 (.valid (some "a@b.c")) [] "T" false true).response := by
  refine ⟨by decide, by decide, by decide⟩

/-- C8 amended: in the current subscribe handler a store failure aborts
the operation — the store is unchanged, no notifier call is made, and the
caller gets a generic 500 store-error message — while a notifier failure
after a successful write is caught by a separate handler that keeps the
write, and its message differs from the store-error message.  The
notifier-failure policy is, however, not uniform across the program's
revisions: on the same input the current handler answers 500, the
`part_001` revision masks the failure as 200, and the `part_000` revision
answers with the very response it gives to store failures. -/
theorem notifier_vs_store_error_handling (db : List Subscriber)
    (email token : String)
    (hv : emailRegexTest email = true) (hne : email ≠ "") :
    (∀ e, POST (.valid (some email)) db token true false e =
      ⟨db, ⟨500, "Database error occurred. Please try again later."⟩, []⟩) ∧
    (∀ row, (upsert db email token).2 = [row] → row.status ≠ .confirmed →
      (POST (.valid (some email)) db token true true false).response =
        ⟨500, "Failed to send confirmation email. Please try again or contact support."⟩ ∧
      (POST (.valid (some email)) db token true true false).db =
        (upsert db email token).1 ∧
      (POSTrev1 (.valid (some email)) db token true false).response.status = 200 ∧
      (POSTrev0 (.valid (some email)) db token true false).response =
        ⟨500, "Failed to subscribe. Please try again later."⟩ ∧
      (POSTrev0 (.valid (some email)) db token false true).response =
        ⟨500, "Failed to subscribe. Please try again later."⟩) ∧
    ("Failed to send confirmation email. Please try again or contact support." ≠
      "Database error occurred. Please try again later.") := by
  refine ⟨?_, ?_, by decide⟩
  · intro e
    simp [POST, hne, hv]
  · intro row hrow hnc
    refine ⟨by simp [POST, hne, hv, hrow, hnc], ?_,
      by simp [POSTrev1, hne, hv, hrow, hnc],
      by simp [POSTrev0, hne, hv, hrow, hnc],
      by simp [POSTrev0, hne, hv]⟩
    exact POST_db_of_query db email token false hne hv

/-- C8 amended witness: the error-handling contrast on the empty store. -/
theorem notifier_vs_store_error_handling_witness :
    POST (.valid (some "a@b.c")) [] "T" true false true =
      ⟨[], ⟨500, "Database error occurred. Please try again later."⟩, []⟩ ∧
    (POST (.valid (some "a@b.c")) [] "T" true true false).response =
      ⟨500, "Failed to send confirmation email. Please try again or contact support."⟩ ∧
    (POSTrev1 (.valid (some "a@b.c")) [] "T" true false).response.status = 200 := by
  have h := notifier_vs_store_error_handling [] "a@b.c" "T" (by decide) (by decide)
  have h2 := h.2.1 ⟨"a@b.c", .pending, some "T"⟩ (by decide) (by decide)
  exact ⟨h.1 true, h2.1, h2.2.2.1⟩

/-- C9: modelling the two concurrent `confirm(T)` calls by the sequential
composition of the two atomic conditional updates (each `UPDATE` statement
is atomic, so any interleaving serializes; both calls are identical, so
the two orders coincide): against a store holding a pending record with
token T, the pair of calls yields exactly one 200 and one 404 — never two
200s — and the second call does not change the store produced by the
first. -/
theorem concurrent_confirm_one_success (db : List Subscriber) (t : String)
    (r : Subscriber) (ht : t ≠ "") (hr : r ∈ db)
    (htok : r.confirmation_token = some t) (hst : r.status = .pending) :
    ((GET db (some t) true).response.status = 200 ∧
     (GET (GET db (some t) true).db (some t) true).response.status = 404) ∧
    ¬ ((GET db (some t) true).response.status = 200 ∧
       (GET (GET db (some t) true).db (some t) true).response.status = 200) ∧
    (GET (GET db (some t) true).db (some t) true).db =
      (GET db (some t) true).db := by
  have hm : confirmMatches r t = true := by simp [confirmMatches, htok, hst]
  obtain ⟨h200, hdb⟩ := GET_success db t ht r hr hm
  have hnm : ∀ y ∈ (GET db (some t) true).db, confirmMatches y t = false := by
    rw [hdb]
    exact confirmUpdate_fst_no_match db t
  have h404 := GET_of_no_match (GET db (some t) true).db t ht hnm
  refine ⟨⟨h200, by rw [h404]⟩, ?_, by rw [h404]⟩
  rintro ⟨-, habs⟩
  rw [h404] at habs
  cases habs

/-- C9 witness: the serialized pair of confirms on a one-record pending
store. -/
theorem concurrent_confirm_one_success_witness :
    (GET [⟨"a@b.c", .pending, some "T"⟩] (some "T") true).response.status = 200 ∧
    (GET (GET [⟨"a@b.c", .pending, some "T"⟩] (some "T") true).db (some "T")
      true).response.status = 404 :=
  (concurrent_confirm_one_success [⟨"a@b.c", .pending, some "T"⟩] "T"
    ⟨"a@b.c", .pending, some "T"⟩ (by decide) (by simp) rfl rfl).1

/-- C10: a subscribe request whose body does not parse as JSON answers
HTTP 400 with the message `Invalid request format.`, with no store write
and no notifier call. -/
theorem invalid_json_rejected (db : List Subscriber) (token : String)
    (c q e : Bool) :
    POST .invalidJson db token c q e =
      ⟨db, ⟨400, "Invalid request format."⟩, []⟩ := rfl

end MailingList
